import Mathlib

/-!
Shallow embedding of the GPU resource and frame-loop subsystem of the
normal-map renderer (canvas/WebGL setup file and PPMFileLoader.ts).

WebGL side effects are modelled as a trace of emitted calls together with a
fresh-handle allocator; the outcome of fallible GPU operations (shader
creation and compilation, program linking, texture creation, uniform-location
lookup) is supplied by an oracle environment so that both the success and the
failure paths of the source can be exercised.  Thrown JavaScript exceptions
are modelled as the error branch of an explicit result, carried next to the
state that was current when the exception was raised.
-/

namespace NormalMapRenderer

/-- One recorded WebGL call.  Only the arguments observable by the claims are
carried; viewport coordinates are rationals because the source computes them
with JavaScript number division. -/
inductive GLCall where
  | createShaderCall (stage : String)
  | compileShaderCall (stage : String)
  | createProgramCall
  | attachShaderCall (prog shader : Nat)
  | linkProgramCall
  | deleteShaderCall (h : Nat)
  | useProgramCall (p : Nat)
  | createBufferCall
  | bindBufferCall
  | bufferDataCall
  | enableVertexAttribArrayCall (loc : Int)
  | vertexAttribPointerCall (loc : Int) (sz : Nat) (stride : Nat) (off : Nat)
  | createTextureCall
  | deleteTextureCall (h : Nat)
  | activeTextureCall (unit : Nat)
  | bindTextureCall (h : Nat)
  | texParameteriCall
  | uniform1iCall (loc : Nat) (v : Nat)
  | uniform2fvCall (loc : Option Nat)
  | uniform3fvCall (loc : Nat) (len : Nat)
  | uniformMatrix4fvCall (loc : Option Nat)
  | texImage2DCall (w h : Nat)
  | generateMipmapCall
  | viewportCall (x y w h : Rat)
  | clearColorCall
  | enableDepthTestCall
  | drawElementsCall (mode : String) (count : Nat) (byteOffset : Nat)
  | flushCall
  | finishCall

/-- Trace-and-allocator state of the WebGL context: the list of calls issued
so far and the next fresh object handle. -/
structure GLState where
  nextHandle : Nat
  calls : List GLCall

/-- Record one WebGL call in the trace. -/
def GLState.emit (gs : GLState) (c : GLCall) : GLState :=
  { gs with calls := gs.calls ++ [c] }

/-- Allocate a fresh GPU object handle. -/
def GLState.fresh (gs : GLState) : Nat × GLState :=
  (gs.nextHandle, { gs with nextHandle := gs.nextHandle + 1 })

/-- Oracle for the fallible WebGL operations: whether each creation,
compilation and linking step succeeds, and the uniform and attribute
locations the linked program declares. -/
structure GLEnv where
  createVertexShaderOk : Bool
  createFragmentShaderOk : Bool
  vertexCompileOk : Bool
  fragmentCompileOk : Bool
  createProgramOk : Bool
  linkOk : Bool
  createTextureOk : Bool
  uniformLoc : String → Option Nat
  attribLoc : String → Int

/-- Raw image as produced by the PPM decoder; data is absent until the file
text has been parsed. -/
structure PPM where
  width : Nat
  height : Nat
  data : Option (List Nat)

/-- Mutable per-model GPU resource record (ModelGL).  renderingProgram is the
cached compiled-program handle, diffuseTexture and normalTexture are the
lazily created texture handles.  textures maps a map type such as map_Kd to a
texture file name. -/
structure ModelGL where
  vertexShaderName : String
  fragmentShaderName : String
  renderingProgram : Option Nat
  hasDiffuseMap : Bool
  hasNormalMap : Bool
  diffuseTexture : Option Nat
  normalTexture : Option Nat
  textures : List (String × String)
  vertexStride : Nat
  textureOffset : Nat
  normalOffset : Nat
  numTriangles : Nat
  vertexIndicesLength : Nat

/-- Camera: only the flags the render loop branches on are needed. -/
structure Camera where
  usePerspective : Bool
  renderSolid : Bool

/-- Light set, exposing the flattened position and color arrays
(getPositionsFloat32 and getColorsFloat32 of GLLights). -/
structure GLLights where
  positions : List Rat
  colors : List Rat

/-- Process-wide scene state (SceneData): the graphics context flag, the
active model and camera, the lights, the canvas size and a frame counter. -/
structure SceneData where
  glContext : Bool
  model : Option ModelGL
  camera : Option Camera
  lights : Option GLLights
  width : Rat
  height : Rat
  frameNumber : Nat

/-- Module-level FPS bookkeeping: the fps, lastTime and frameNumber globals
of the canvas file. -/
structure FPSState where
  fps : Nat
  lastTime : Int
  frameNumber : Nat

/-- Embedding of compileProgram.  It reads the scene, checks the per-model
program cache, compiles the vertex and the fragment shader, links them and
caches the handle on the model; gl is whether the context argument is
non-null.  The first component is the returned handle (error means a thrown
exception); the scene and GL state returned are those current at exit. -/
def compileProgram (env : GLEnv) (gl : Bool) (scene : SceneData)
    (gs : GLState) : Except String (Option Nat) × SceneData × GLState :=
  match scene.model with
  | none => (.ok none, scene, gs)
  | some m =>
    match m.renderingProgram with
    | some p => (.ok (some p), scene, gs)
    | none =>
      match scene.camera with
      | none => (.ok none, scene, gs)
      | some _ =>
        if gl then
          if env.createVertexShaderOk then
            let (vs, gs) := gs.fresh
            let gs := gs.emit (.createShaderCall "vertex")
            let gs := gs.emit (.compileShaderCall "vertex")
            if env.vertexCompileOk then
              if env.createFragmentShaderOk then
                let (fs, gs) := gs.fresh
                let gs := gs.emit (.createShaderCall "fragment")
                let gs := gs.emit (.compileShaderCall "fragment")
                if env.fragmentCompileOk then
                  if env.createProgramOk then
                    let (p, gs) := gs.fresh
                    let gs := gs.emit .createProgramCall
                    let gs := gs.emit (.attachShaderCall p vs)
                    let gs := gs.emit (.attachShaderCall p fs)
                    let gs := gs.emit .linkProgramCall
                    let gs := gs.emit (.deleteShaderCall vs)
                    let gs := gs.emit (.deleteShaderCall fs)
                    if env.linkOk then
                      (.ok (some p),
                       { scene with
                          model := some { m with renderingProgram := some p } },
                       gs)
                    else
                      (.ok none, scene, gs)
                  else
                    (.error "Failed to create shader program", scene, gs)
                else
                  (.ok none, scene, gs)
              else
                (.error "Failed to create fragment shader", scene, gs)
            else
              (.ok none, scene, gs)
          else
            (.error "Failed to create vertex shader", scene, gs)
        else
          (.ok none, scene, gs)

/-- A call trace produced by one successful compile-and-link sequence,
starting from handle n: vertex shader n, fragment shader n + 1,
program n + 2. -/
def successCompileTrace (n : Nat) : List GLCall :=
  [.createShaderCall "vertex", .compileShaderCall "vertex",
   .createShaderCall "fragment", .compileShaderCall "fragment",
   .createProgramCall, .attachShaderCall (n + 2) n,
   .attachShaderCall (n + 2) (n + 1), .linkProgramCall,
   .deleteShaderCall n, .deleteShaderCall (n + 1)]

/-- Counts the linkProgram calls in a trace. -/
def countLinkCalls (l : List GLCall) : Nat :=
  l.countP fun c => match c with | .linkProgramCall => true | _ => false

/-- Counts the compileShader calls in a trace. -/
def countCompileCalls (l : List GLCall) : Nat :=
  l.countP fun c => match c with | .compileShaderCall _ => true | _ => false

/-- Embedding of setUpLights.  Uploads the flattened light position and
color arrays, but only for a model whose vertex shader name is exactly
vertexTextureNormalNormalMapShader; a missing uniform location throws.  The
TypeError raised by dereferencing a null model through the non-null
assertion is modelled as an error as well. -/
def setUpLights (env : GLEnv) (gl : Bool) (scene : SceneData)
    (gs : GLState) : Except String Unit × GLState :=
  if gl then
    match scene.lights with
    | none => (.ok (), gs)
    | some lights =>
      match scene.model with
      | none => (.error "TypeError: sceneData.model is null", gs)
      | some m =>
        if m.vertexShaderName = "vertexTextureNormalNormalMapShader" then
          match env.uniformLoc "lightsUniform" with
          | none => (.error "Failed to get the storage location of hack", gs)
          | some loc1 =>
            let gs := gs.emit (.uniform3fvCall loc1 lights.positions.length)
            match env.uniformLoc "lightColors" with
            | none => (.error "Failed to get the storage location of lightColor", gs)
            | some loc2 =>
              (.ok (), gs.emit (.uniform3fvCall loc2 lights.colors.length))
        else
          (.ok (), gs)
  else
    (.ok (), gs)

/-- Embedding of setUpTexture.  Configures the textureCoord attribute,
creates and parameterises a texture object, resolves the texture file via
the synchronous loader cache, binds the sampler uniform and uploads the
pixels; returns none when texture creation fails or the image data is not
cached, and throws when the sampler uniform is missing. -/
def setUpTexture (env : GLEnv) (gl : Bool) (loader : List (String × PPM))
    (model : ModelGL) (textureUnit : Nat) (textureType : String)
    (samplerName : String) (gs : GLState) :
    Except String (Option Nat) × GLState :=
  if gl then
    let texLoc := env.attribLoc "textureCoord"
    let gs := gs.emit (.enableVertexAttribArrayCall texLoc)
    let gs := gs.emit
      (.vertexAttribPointerCall texLoc 2 model.vertexStride model.textureOffset)
    if env.createTextureOk then
      let (tex, gs) := gs.fresh
      let gs := gs.emit .createTextureCall
      let gs := gs.emit (.activeTextureCall textureUnit)
      let gs := gs.emit (.bindTextureCall tex)
      let gs := gs.emit .texParameteriCall
      let gs := gs.emit .texParameteriCall
      let gs := gs.emit .texParameteriCall
      match (model.textures.lookup textureType).bind
          (fun n => loader.lookup n) with
      | none => (.ok none, gs)
      | some ppm =>
        match ppm.data with
        | none => (.ok none, gs)
        | some _ =>
          match env.uniformLoc samplerName with
          | none =>
            (.error "The sampler name was not found in the program", gs)
          | some loc =>
            let gs := gs.emit (.uniform1iCall loc textureUnit)
            let gs := gs.emit (.texImage2DCall ppm.width ppm.height)
            let gs := gs.emit .generateMipmapCall
            (.ok (some tex), gs)
    else
      (.ok none, gs)
  else
    (.ok none, gs)

/-- Embedding of setUpTextures.  Lazily creates the diffuse and normal
textures when the corresponding map flags are set, throwing when a required
texture could not be produced; the normal-map branch additionally uploads
the time-varying uvOffset uniform (its sine value is not observed by any
claim, so only the call is recorded). -/
def setUpTextures (env : GLEnv) (gl : Bool) (loader : List (String × PPM))
    (model : ModelGL) (gs : GLState) :
    Except String Bool × ModelGL × GLState :=
  if gl then
    let step1 : Except String ModelGL × GLState :=
      if model.hasDiffuseMap then
        match model.diffuseTexture with
        | some _ => (.ok model, gs)
        | none =>
          match setUpTexture env gl loader model 0 "map_Kd" "textureSampler" gs with
          | (.error e, gs) => (.error e, gs)
          | (.ok t, gs) =>
            match t with
            | none =>
              (.error "Failed to set up diffuse texture, it was expected to be there but it was not", gs)
            | some _ => (.ok { model with diffuseTexture := t }, gs)
      else
        (.ok model, gs)
    match step1 with
    | (.error e, gs) => (.error e, model, gs)
    | (.ok model1, gs) =>
      if model1.hasNormalMap then
        let step2 : Except String ModelGL × GLState :=
          match model1.normalTexture with
          | some _ => (.ok model1, gs)
          | none =>
            match setUpTexture env gl loader model1 1 "map_Bump" "normalSampler" gs with
            | (.error e, gs) => (.error e, gs)
            | (.ok t, gs) =>
              match t with
              | none =>
                (.error "Failed to set up normal texture, it was expected to be there but it was not", gs)
              | some _ => (.ok { model1 with normalTexture := t }, gs)
        match step2 with
        | (.error e, gs) => (.error e, model1, gs)
        | (.ok model2, gs) =>
          let gs := gs.emit (.uniform2fvCall (env.uniformLoc "uvOffset"))
          (.ok true, model2, gs)
      else
        (.ok true, model1, gs)
  else
    (.ok false, model, gs)

/-- Embedding of cleanUpTextures.  Deletes and nulls the diffuse texture
handle when hasDiffuseMap is set and it is non-null, then likewise for the
normal texture; a null gl context or a null model leaves everything
untouched. -/
def cleanUpTextures (gl : Bool) (model? : Option ModelGL) (gs : GLState) :
    Option ModelGL × GLState :=
  if gl then
    match model? with
    | none => (none, gs)
    | some model =>
      let step1 : ModelGL × GLState :=
        if model.hasDiffuseMap then
          match model.diffuseTexture with
          | some t =>
            ({ model with diffuseTexture := none },
             gs.emit (.deleteTextureCall t))
          | none => (model, gs)
        else
          (model, gs)
      let model1 := step1.1
      let gs1 := step1.2
      if model1.hasNormalMap then
        match model1.normalTexture with
        | some t =>
          (some { model1 with normalTexture := none },
           gs1.emit (.deleteTextureCall t))
        | none => (some model1, gs1)
      else
        (some model1, gs1)
  else
    (model?, gs)

/-- Embedding of setUpVertexBuffer: uploads the packed vertex buffer and the
index buffer and configures the position attribute (3 floats, the model's
stride, offset 0). -/
def setUpVertexBuffer (env : GLEnv) (model : ModelGL) (gs : GLState) :
    GLState :=
  let gs := gs.emit .createBufferCall
  let gs := gs.emit .bindBufferCall
  let gs := gs.emit .bufferDataCall
  let gs := gs.emit .createBufferCall
  let gs := gs.emit .bindBufferCall
  let gs := gs.emit .bufferDataCall
  let gs := gs.emit (.enableVertexAttribArrayCall (env.attribLoc "position"))
  gs.emit (.vertexAttribPointerCall (env.attribLoc "position") 3
    model.vertexStride 0)

/-- Models the JavaScript string includes check used by the render loop on
the vertex shader name. -/
def includesNormal (s : String) : Bool :=
  2 ≤ (s.splitOn "Normal").length

/-- Embedding of the viewport computation of the render loop: letterboxing
to the largest centered square unless the camera uses perspective.  Returns
xOffset, yOffset, width, height. -/
def computeViewport (usePerspective : Bool) (w h : Rat) :
    Rat × Rat × Rat × Rat :=
  if !usePerspective then
    let squareSize := if w > h then h else w
    ((w - squareSize) / 2, (h - squareSize) / 2, squareSize, squareSize)
  else
    (0, 0, w, h)

/-- Embedding of the draw step of the render loop: one line-loop draw of 3
indices per triangle in wireframe mode (byte offset 2 per index), one
triangle-list draw of the whole index buffer in solid mode. -/
def drawModel (renderSolid : Bool) (model : ModelGL) (gs : GLState) :
    GLState :=
  if !renderSolid then
    (List.range model.numTriangles).foldl
      (fun g i => g.emit (.drawElementsCall "LINE_LOOP" 3 (i * 3 * 2))) gs
  else
    gs.emit (.drawElementsCall "TRIANGLES" model.vertexIndicesLength 0)

/-- Embedding of the FPS bookkeeping at the end of the render loop:
increment the frame counter, and when strictly more than 1000 time-units
have passed since lastTime, publish the counter as fps and reset the counter
and the window start. -/
def updateFPS (now : Int) (s : FPSState) : FPSState :=
  let s := { s with frameNumber := s.frameNumber + 1 }
  if now - s.lastTime > 1000 then
    { fps := s.frameNumber, lastTime := now, frameNumber := 0 }
  else
    s

/-- Outcome of one renderLoop invocation: the uncaught exception if one was
raised, whether requestAnimationFrame was reached, and the states at exit. -/
structure LoopResult where
  err : Option String
  rescheduled : Bool
  scene : SceneData
  fpsS : FPSState
  gs : GLState

/-- Embedding of renderLoop.  Guards on context, model and camera; compiles
or fetches the program; binds it; sets up vertex buffers, lights and
textures (exceptions from those steps propagate, aborting before the
reschedule); uploads the matrices; computes the viewport; draws; updates the
FPS counters; and only at the very end reschedules itself. -/
def renderLoop (env : GLEnv) (loader : List (String × PPM)) (now : Int)
    (scene : SceneData) (fpsS : FPSState) (gs : GLState) : LoopResult :=
  if !scene.glContext then ⟨none, false, scene, fpsS, gs⟩
  else
    match scene.model with
    | none => ⟨none, false, scene, fpsS, gs⟩
    | some _ =>
      match scene.camera with
      | none => ⟨none, false, scene, fpsS, gs⟩
      | some camera =>
        match compileProgram env true scene gs with
        | (.error e, scene, gs) => ⟨some e, false, scene, fpsS, gs⟩
        | (.ok none, scene, gs) => ⟨none, false, scene, fpsS, gs⟩
        | (.ok (some prog), scene, gs) =>
          match scene.model with
          | none => ⟨none, false, scene, fpsS, gs⟩
          | some model =>
            let gs := gs.emit (.useProgramCall prog)
            let gs := setUpVertexBuffer env model gs
            match setUpLights env true scene gs with
            | (.error e, gs) => ⟨some e, false, scene, fpsS, gs⟩
            | (.ok _, gs) =>
              match setUpTextures env true loader model gs with
              | (.error e, model2, gs) =>
                ⟨some e, false, { scene with model := some model2 }, fpsS, gs⟩
              | (.ok _, model2, gs) =>
                let scene := { scene with model := some model2 }
                let gs :=
                  if includesNormal model2.vertexShaderName then
                    (gs.emit (.enableVertexAttribArrayCall
                      (env.attribLoc "normal"))).emit
                      (.vertexAttribPointerCall (env.attribLoc "normal") 3
                        model2.vertexStride model2.normalOffset)
                  else gs
                let gs := gs.emit
                  (.uniformMatrix4fvCall (env.uniformLoc "projectionMatrix"))
                let gs := gs.emit
                  (.uniformMatrix4fvCall (env.uniformLoc "viewMatrix"))
                let gs := gs.emit
                  (.uniformMatrix4fvCall (env.uniformLoc "modelMatrix"))
                let gs := gs.emit (.viewportCall 0 0 scene.width scene.height)
                let scene := { scene with frameNumber := scene.frameNumber + 1 }
                let gs := gs.emit .clearColorCall
                let vp := computeViewport camera.usePerspective scene.width
                  scene.height
                let gs := gs.emit (.viewportCall vp.1 vp.2.1 vp.2.2.1 vp.2.2.2)
                let gs := gs.emit .enableDepthTestCall
                let gs := drawModel camera.renderSolid model2 gs
                let gs := gs.emit .flushCall
                let gs := gs.emit .finishCall
                let fpsS := updateFPS now fpsS
                ⟨none, true, scene, fpsS, gs⟩

/-- Observable effect of the PPM file loader besides its cache. -/
inductive LoaderEffect where
  | log (msg : String)
  | fetch (url : String)

/-- Server prefix prepended to texture paths by the loader (URLPrefix). -/
def urlBase : String := "http://localhost:8080/objects/"

/-- Embedding of PPMFileLoader.loadFile: a synchronous lookup in the model
cache that returns the cached image or undefined and performs no fetch. -/
def loadFile (cache : List (String × PPM)) (path : String) :
    Option PPM × List (String × PPM) × List LoaderEffect :=
  match cache.lookup path with
  | some image => (some image, cache, [.log (path ++ " already loaded")])
  | none => (none, cache, [])

/-- Embedding of PPMFileLoader.loadIntoCache: on a cache miss it fetches the
file text, parses it and stores it in the cache; the awaited promise value
is discarded by the source, so the miss path resolves to undefined even on
success. -/
def loadIntoCache (fetchResult : String → Option String)
    (parse : String → PPM) (cache : List (String × PPM)) (path : String) :
    Option PPM × List (String × PPM) × List LoaderEffect :=
  match cache.lookup path with
  | some image => (some image, cache, [.log (path ++ " already loaded")])
  | none =>
    let fullPath := urlBase ++ path
    match fetchResult fullPath with
    | none => (none, cache, [.fetch fullPath, .log "Network response was not ok"])
    | some data => (none, cache ++ [(path, parse data)], [.fetch fullPath])

/-- Whether a loader effect is a network fetch. -/
def isFetch (e : LoaderEffect) : Bool :=
  match e with | .fetch _ => true | _ => false

/-- Shared concrete fixture: an empty GL trace with allocator at 0. -/
def gs0 : GLState := ⟨0, []⟩

/-- Concrete camera fixture: perspective, solid rendering. -/
def cam0 : Camera := ⟨true, true⟩

/-- Concrete FPS fixture: all counters at zero. -/
def fps0 : FPSState := ⟨0, 0, 0⟩

/-- Concrete model fixture with no cached program and no texture maps. -/
def m0 : ModelGL :=
  ⟨"vertexShader", "fragmentShader", none, false, false, none, none,
   [], 32, 12, 20, 2, 6⟩

/-- Concrete scene fixture around m0. -/
def sceneFresh : SceneData := ⟨true, some m0, some cam0, some ⟨[], []⟩, 800, 600, 0⟩

/-- Oracle in which every GPU operation succeeds and every location exists. -/
def envAllOk : GLEnv :=
  ⟨true, true, true, true, true, true, true, fun _ => some 0, fun _ => 0⟩

/-- Oracle in which the vertex shader fails to compile. -/
def envVertexCompileFail : GLEnv :=
  ⟨true, true, false, true, true, true, true, fun _ => some 0, fun _ => 0⟩

/-- Oracle in which every creation step succeeds but no uniform location is
ever found. -/
def envNoLoc : GLEnv :=
  ⟨true, true, true, true, true, true, true, fun _ => none, fun _ => 0⟩

/-- Model whose vertex shader name strictly contains NormalMap but is not
the exact gate string. -/
def mSub : ModelGL :=
  ⟨"vertexNormalMapShader", "fragmentShader", none, false, false, none, none,
   [], 32, 12, 20, 2, 6⟩

/-- Scene fixture around mSub. -/
def sceneSub : SceneData := ⟨true, some mSub, some cam0, some ⟨[], []⟩, 800, 600, 0⟩

/-- Model with the exact gate shader name and a cached program. -/
def mGate : ModelGL :=
  ⟨"vertexTextureNormalNormalMapShader", "fragmentTextureNormalMapShader",
   some 7, false, false, none, none, [], 32, 12, 20, 2, 6⟩

/-- Scene fixture around mGate. -/
def sceneGate : SceneData := ⟨true, some mGate, some cam0, some ⟨[], []⟩, 800, 600, 0⟩

/-- A decoded 2 by 2 image fixture. -/
def ppm1 : PPM := ⟨2, 2, some [255, 0, 0]⟩

/-- Loader cache holding one decoded texture. -/
def loader1 : List (String × PPM) := [("tex.ppm", ppm1)]

/-- Model with a diffuse map bound to the cached texture file and a cached
program, but no created texture handle yet. -/
def mTex : ModelGL :=
  ⟨"vertexTextureShader", "fragmentTextureShader", some 7, true, false, none,
   none, [("map_Kd", "tex.ppm")], 32, 12, 20, 2, 6⟩

/-- Scene fixture around mTex, used with an empty loader cache so that the
diffuse texture data is not yet available. -/
def sceneTexMiss : SceneData :=
  ⟨true, some mTex, some cam0, some ⟨[], []⟩, 800, 600, 0⟩

/-- Model violating the texture-flag invariant: a diffuse handle is set but
hasDiffuseMap is false. -/
def mBad : ModelGL :=
  ⟨"vertexShader", "fragmentShader", none, false, false, some 5, none,
   [], 32, 12, 20, 2, 6⟩

/-- Model with both maps, both handles set and the gate shader name, for the
cleanup witness. -/
def mFull : ModelGL :=
  ⟨"vertexTextureNormalNormalMapShader", "fragmentTextureNormalMapShader",
   none, true, true, some 3, some 4,
   [("map_Kd", "tex.ppm"), ("map_Bump", "bump.ppm")], 32, 12, 20, 2, 6⟩

/-- On a cache miss with every GPU step succeeding, compileProgram runs one
compile-and-link sequence, caches the new program handle on the model and
returns it. -/
lemma compileProgram_success_eq (env : GLEnv) (scene : SceneData)
    (gs : GLState) (m : ModelGL) (c : Camera)
    (h1 : env.createVertexShaderOk = true)
    (h2 : env.createFragmentShaderOk = true)
    (h3 : env.vertexCompileOk = true) (h4 : env.fragmentCompileOk = true)
    (h5 : env.createProgramOk = true) (h6 : env.linkOk = true)
    (hm : scene.model = some m) (hrp : m.renderingProgram = none)
    (hc : scene.camera = some c) :
    compileProgram env true scene gs =
      (.ok (some (gs.nextHandle + 2)),
       { scene with
          model := some { m with renderingProgram := some (gs.nextHandle + 2) } },
       { nextHandle := gs.nextHandle + 3,
         calls := gs.calls ++ successCompileTrace gs.nextHandle }) := by
  simp [compileProgram, hm, hrp, hc, h1, h2, h3, h4, h5, h6,
    GLState.fresh, GLState.emit, successCompileTrace]

/-- C1: if the model's renderingProgram cache is set, compileProgram returns
that handle with the scene and the GL trace unchanged (no GPU calls), and on
a cache miss with a working GPU two consecutive calls return the identical
newly cached handle while issuing exactly one link call and two shader
compile calls in total. -/
theorem compileProgram_cache_hit_and_single_compile :
    (∀ (env : GLEnv) (gl : Bool) (scene : SceneData) (gs : GLState)
       (m : ModelGL) (p : Nat),
        scene.model = some m → m.renderingProgram = some p →
        compileProgram env gl scene gs = (.ok (some p), scene, gs)) ∧
    (∀ (env : GLEnv) (scene : SceneData) (gs : GLState) (m : ModelGL)
       (c : Camera),
        env.createVertexShaderOk = true → env.createFragmentShaderOk = true →
        env.vertexCompileOk = true → env.fragmentCompileOk = true →
        env.createProgramOk = true → env.linkOk = true →
        scene.model = some m → m.renderingProgram = none →
        scene.camera = some c →
        ∃ (p : Nat) (scene1 : SceneData) (gs1 : GLState),
          compileProgram env true scene gs = (.ok (some p), scene1, gs1) ∧
          compileProgram env true scene1 gs1 = (.ok (some p), scene1, gs1) ∧
          countLinkCalls gs1.calls = countLinkCalls gs.calls + 1 ∧
          countCompileCalls gs1.calls = countCompileCalls gs.calls + 2) := by
  constructor
  · intro env gl scene gs m p hm hp
    simp [compileProgram, hm, hp]
  · intro env scene gs m c h1 h2 h3 h4 h5 h6 hm hrp hc
    refine ⟨gs.nextHandle + 2,
      { scene with
         model := some { m with renderingProgram := some (gs.nextHandle + 2) } },
      { nextHandle := gs.nextHandle + 3,
        calls := gs.calls ++ successCompileTrace gs.nextHandle }, ?_, ?_, ?_, ?_⟩
    · exact compileProgram_success_eq env scene gs m c h1 h2 h3 h4 h5 h6 hm hrp hc
    · simp [compileProgram]
    · simp [countLinkCalls, successCompileTrace, List.countP_append]
    · simp [countCompileCalls, successCompileTrace, List.countP_append]

/-- Witness for C1 at a concrete scene: the first compile returns handle 2
and the second returns the same cached handle. -/
theorem compileProgram_cache_hit_and_single_compile_witness :
    ∃ (p : Nat) (scene1 : SceneData) (gs1 : GLState),
      compileProgram envAllOk true sceneFresh gs0 = (.ok (some p), scene1, gs1) ∧
      compileProgram envAllOk true scene1 gs1 = (.ok (some p), scene1, gs1) ∧
      countLinkCalls gs1.calls = countLinkCalls gs0.calls + 1 ∧
      countCompileCalls gs1.calls = countCompileCalls gs0.calls + 2 :=
  compileProgram_cache_hit_and_single_compile.2 envAllOk sceneFresh gs0 m0 cam0
    rfl rfl rfl rfl rfl rfl rfl rfl rfl

/-- C9: with an unset program cache, every non-throwing failure path of
compileProgram returns null and leaves the scene (hence the model's
renderingProgram) unchanged, every throwing path leaves it unchanged too,
and a program handle is returned and cached exactly when every GPU step up
to and including linking succeeds, in which case the cache holds the
returned handle. -/
theorem compileProgram_cache_written_iff_link_ok :
    ∀ (env : GLEnv) (gl : Bool) (scene : SceneData) (gs : GLState)
      (m : ModelGL),
      scene.model = some m → m.renderingProgram = none →
      (((compileProgram env gl scene gs).1 = .ok none →
          (compileProgram env gl scene gs).2.1 = scene) ∧
       (∀ e, (compileProgram env gl scene gs).1 = .error e →
          (compileProgram env gl scene gs).2.1 = scene) ∧
       ((∃ p, (compileProgram env gl scene gs).1 = .ok (some p)) ↔
          (gl = true ∧ (∃ c, scene.camera = some c) ∧
           env.createVertexShaderOk = true ∧ env.vertexCompileOk = true ∧
           env.createFragmentShaderOk = true ∧ env.fragmentCompileOk = true ∧
           env.createProgramOk = true ∧ env.linkOk = true)) ∧
       (∀ p, (compileProgram env gl scene gs).1 = .ok (some p) →
          (compileProgram env gl scene gs).2.1 =
            { scene with
               model := some { m with renderingProgram := some p } })) := by
  intro env gl scene gs m hm hrp
  obtain ⟨cv, cf, vc, fc, cp, lk, ct, ul, al⟩ := env
  rcases hcam : scene.camera with _ | c <;>
    cases gl <;> cases cv <;> cases vc <;> cases cf <;> cases fc <;>
    cases cp <;> cases lk <;>
    simp [compileProgram, hm, hrp, hcam, GLState.fresh, GLState.emit]

/-- Witness for C9: a vertex-shader compile failure returns null and leaves
the concrete scene unchanged. -/
theorem compileProgram_cache_written_iff_link_ok_witness :
    (compileProgram envVertexCompileFail true sceneFresh gs0).2.1 = sceneFresh := by
  have h := compileProgram_cache_written_iff_link_ok envVertexCompileFail true
    sceneFresh gs0 m0 rfl rfl
  exact h.1 (by rfl)

/-- C8: setUpLights uploads the light uniform arrays only when the vertex
shader name is exactly vertexTextureNormalNormalMapShader; for any other
name, substrings included, it returns with the GL trace unchanged, and for
the exact name with both locations present it emits exactly the two
uniform3fv uploads. -/
theorem setUpLights_exact_name_gate :
    (∀ (env : GLEnv) (gl : Bool) (scene : SceneData) (gs : GLState)
       (m : ModelGL),
        scene.model = some m →
        ¬(m.vertexShaderName = "vertexTextureNormalNormalMapShader") →
        setUpLights env gl scene gs = (.ok (), gs)) ∧
    (∀ (env : GLEnv) (scene : SceneData) (gs : GLState) (m : ModelGL)
       (lights : GLLights) (loc1 loc2 : Nat),
        scene.lights = some lights → scene.model = some m →
        m.vertexShaderName = "vertexTextureNormalNormalMapShader" →
        env.uniformLoc "lightsUniform" = some loc1 →
        env.uniformLoc "lightColors" = some loc2 →
        setUpLights env true scene gs =
          (.ok (),
           (gs.emit (.uniform3fvCall loc1 lights.positions.length)).emit
             (.uniform3fvCall loc2 lights.colors.length))) := by
  constructor
  · intro env gl scene gs m hm hname
    cases gl <;> rcases hl : scene.lights with _ | lights <;>
      simp [setUpLights, hm, hname, hl]
  · intro env scene gs m lights loc1 loc2 hl hm hname h1 h2
    simp [setUpLights, hm, hname, hl, h1, h2]

/-- Witness for C8: a shader name merely containing NormalMap leaves the
trace untouched. -/
theorem setUpLights_exact_name_gate_witness :
    setUpLights envAllOk true sceneSub gs0 = (.ok (), gs0) :=
  setUpLights_exact_name_gate.1 envAllOk true sceneSub gs0 mSub rfl (by decide)

/-- Counterexample for C3: with the gate passed but no lights uniform
location the frame raises an uncaught exception that propagates out of
renderLoop (so the frame does not continue and is not rescheduled), and a
missing texture sampler location likewise throws inside setUpTexture. -/
theorem missing_uniform_location_throws_cex :
    (renderLoop envNoLoc [] 0 sceneGate fps0 gs0).err =
      some "Failed to get the storage location of hack" ∧
    (renderLoop envNoLoc [] 0 sceneGate fps0 gs0).rescheduled = false ∧
    (setUpTexture envNoLoc true loader1 mTex 0 "map_Kd" "textureSampler" gs0).1 =
      .error "The sampler name was not found in the program" := by
  exact ⟨rfl, rfl, rfl⟩

/-- C3 as amended: a missing uniform location for the lights arrays or for a
texture sampler raises an exception (there is no catch on the frame path),
rather than skipping the feature for the frame. -/
theorem missing_uniform_location_throws :
    (∀ (env : GLEnv) (scene : SceneData) (gs : GLState) (m : ModelGL)
       (lights : GLLights),
        scene.lights = some lights → scene.model = some m →
        m.vertexShaderName = "vertexTextureNormalNormalMapShader" →
        env.uniformLoc "lightsUniform" = none →
        setUpLights env true scene gs =
          (.error "Failed to get the storage location of hack", gs)) ∧
    (∀ (env : GLEnv) (loader : List (String × PPM)) (model : ModelGL)
       (unit : Nat) (ttype sname fname : String) (gs : GLState) (ppm : PPM)
       (d : List Nat),
        env.createTextureOk = true →
        model.textures.lookup ttype = some fname →
        loader.lookup fname = some ppm → ppm.data = some d →
        env.uniformLoc sname = none →
        (setUpTexture env true loader model unit ttype sname gs).1 =
          .error "The sampler name was not found in the program") := by
  constructor
  · intro env scene gs m lights hl hm hname hloc
    simp [setUpLights, hm, hname, hl, hloc]
  · intro env loader model unit ttype sname fname gs ppm d hct hmt hld hdata hloc
    simp [setUpTexture, hct, hmt, hld, hdata, hloc, GLState.fresh, GLState.emit]

/-- Witness for C3 as amended, at the concrete gate scene. -/
theorem missing_uniform_location_throws_witness :
    setUpLights envNoLoc true sceneGate gs0 =
      (.error "Failed to get the storage location of hack", gs0) :=
  missing_uniform_location_throws.1 envNoLoc sceneGate gs0 mGate ⟨[], []⟩
    rfl rfl rfl rfl

/-- Counterexample for C4: cleanup is gated on the map flags, so a non-null
diffuse handle with hasDiffuseMap unset survives cleanup untouched. -/
theorem cleanUpTextures_not_unconditional_cex :
    (cleanUpTextures true (some mBad) gs0).1 = some mBad ∧
    mBad.diffuseTexture = some 5 := by
  exact ⟨rfl, rfl⟩

/-- A texture handle returned by setUpTexture is always the allocator's
current fresh handle, never a previously allocated one. -/
lemma setUpTexture_ok_some_fresh (env : GLEnv) (loader : List (String × PPM))
    (model : ModelGL) (unit : Nat) (ttype sname : String) (gs : GLState)
    (t : Nat)
    (h : (setUpTexture env true loader model unit ttype sname gs).1 =
      .ok (some t)) : t = gs.nextHandle := by
  unfold setUpTexture at h
  repeat' split at h
  all_goals simp_all [GLState.fresh, GLState.emit]

/-- setUpTexture never decreases the fresh-handle allocator. -/
lemma setUpTexture_nextHandle_mono (env : GLEnv) (gl : Bool)
    (loader : List (String × PPM)) (model : ModelGL) (unit : Nat)
    (ttype sname : String) (gs : GLState) :
    gs.nextHandle ≤
      (setUpTexture env gl loader model unit ttype sname gs).2.nextHandle := by
  unfold setUpTexture
  repeat' split
  all_goals simp [GLState.fresh, GLState.emit]

/-- C4 as amended: cleanup deletes and nulls exactly the texture handles
whose map flag is set, so under the setup-maintained invariant that a
non-null handle implies its flag, both handles are null after cleanup and
each previously non-null handle is deleted exactly once; and a setup call on
a model with null handles only ever installs handles at or above the
allocator's current fresh counter, never a stale previously allocated
handle. -/
theorem cleanUpTextures_resets_and_setup_recreates :
    (∀ (m : ModelGL) (gs : GLState),
        (m.diffuseTexture = none ∨ m.hasDiffuseMap = true) →
        (m.normalTexture = none ∨ m.hasNormalMap = true) →
        cleanUpTextures true (some m) gs =
          (some { m with diffuseTexture := none, normalTexture := none },
           { gs with calls := gs.calls
              ++ m.diffuseTexture.toList.map GLCall.deleteTextureCall
              ++ m.normalTexture.toList.map GLCall.deleteTextureCall })) ∧
    (∀ (env : GLEnv) (loader : List (String × PPM)) (model : ModelGL)
       (gs : GLState),
        model.diffuseTexture = none → model.normalTexture = none →
        (((setUpTextures env true loader model gs).2.1.diffuseTexture = none ∨
          ∃ h1, (setUpTextures env true loader model gs).2.1.diffuseTexture =
              some h1 ∧ gs.nextHandle ≤ h1) ∧
         ((setUpTextures env true loader model gs).2.1.normalTexture = none ∨
          ∃ h2, (setUpTextures env true loader model gs).2.1.normalTexture =
              some h2 ∧ gs.nextHandle ≤ h2))) := by
  constructor
  · intro m gs h1 h2
    obtain ⟨f1, f2, f3, dm, nm, dt, nt, f8, f9, f10, f11, f12, f13⟩ := m
    simp only at h1 h2
    rcases dt with _ | t1 <;> rcases nt with _ | t2 <;>
      cases dm <;> cases nm <;>
      simp_all [cleanUpTextures, GLState.emit]
  · intro env loader model gs hd hn
    cases hdm : model.hasDiffuseMap with
    | false =>
      cases hnm : model.hasNormalMap with
      | false => simp [setUpTextures, hdm, hnm, hd, hn]
      | true =>
        rcases hst : setUpTexture env true loader model 1 "map_Bump"
            "normalSampler" gs with ⟨r1, gs1⟩
        rcases r1 with e | (_ | t)
        · simp [setUpTextures, hdm, hnm, hd, hn, hst]
        · simp [setUpTextures, hdm, hnm, hd, hn, hst]
        · have ht : t = gs.nextHandle := by
            refine setUpTexture_ok_some_fresh env loader model 1 "map_Bump"
              "normalSampler" gs t ?_
            rw [hst]
          simp [setUpTextures, hdm, hnm, hd, hn, hst, GLState.emit, ht]
    | true =>
      rcases hst1 : setUpTexture env true loader model 0 "map_Kd"
          "textureSampler" gs with ⟨r1, gs1⟩
      have hmono1 : gs.nextHandle ≤ gs1.nextHandle := by
        have := setUpTexture_nextHandle_mono env true loader model 0 "map_Kd"
          "textureSampler" gs
        rwa [hst1] at this
      rcases r1 with e | (_ | t1)
      · simp [setUpTextures, hdm, hd, hn, hst1]
      · simp [setUpTextures, hdm, hd, hn, hst1]
      · have ht1 : t1 = gs.nextHandle := by
          refine setUpTexture_ok_some_fresh env loader model 0 "map_Kd"
            "textureSampler" gs t1 ?_
          rw [hst1]
        cases hnm : model.hasNormalMap with
        | false => simp [setUpTextures, hdm, hnm, hd, hn, hst1, ht1]
        | true =>
          rcases hst2 : setUpTexture env true loader
              { model with diffuseTexture := some t1 } 1 "map_Bump"
              "normalSampler" gs1 with ⟨r2, gs2⟩
          have ht2all := setUpTexture_ok_some_fresh env loader
            { model with diffuseTexture := some t1 } 1 "map_Bump"
            "normalSampler" gs1
          have hfst2 : (setUpTexture env true loader
              { model with diffuseTexture := some t1 } 1 "map_Bump"
              "normalSampler" gs1).1 = r2 := by rw [hst2]
          simp only [hdm, hnm, hd, hn, ht1] at hst2
          rcases r2 with e | (_ | t2)
          · simp [setUpTextures, hdm, hnm, hd, hn, hst1, hst2, ht1]
          · simp [setUpTextures, hdm, hnm, hd, hn, hst1, hst2, ht1]
          · have ht2 : t2 = gs1.nextHandle := ht2all t2 hfst2
            have h2le : gs.nextHandle ≤ t2 := ht2 ▸ hmono1
            simp [setUpTextures, hdm, hnm, hd, hn, hst1, hst2, GLState.emit,
              ht1, h2le]

/-- Witness for C4 as amended: a model with both flags and both handles set
has both handles deleted and nulled by cleanup. -/
theorem cleanUpTextures_resets_and_setup_recreates_witness :
    cleanUpTextures true (some mFull) gs0 =
      (some { mFull with diffuseTexture := none, normalTexture := none },
       { gs0 with calls := gs0.calls
          ++ mFull.diffuseTexture.toList.map GLCall.deleteTextureCall
          ++ mFull.normalTexture.toList.map GLCall.deleteTextureCall }) :=
  cleanUpTextures_resets_and_setup_recreates.1 mFull gs0 (Or.inr rfl)
    (Or.inr rfl)

/-- Folding emit over a list appends the mapped calls in order. -/
lemma foldl_emit_calls (f : Nat → GLCall) (l : List Nat) (gs : GLState) :
    (l.foldl (fun g i => g.emit (f i)) gs).calls = gs.calls ++ l.map f := by
  induction l generalizing gs with
  | nil => simp
  | cons a t ih =>
    rw [List.foldl_cons, ih]
    simp [GLState.emit]

/-- C5: in wireframe mode the draw step appends exactly numTriangles
line-loop draws of 3 indices each, triangle i at byte offset i times 3
indices times 2 bytes; in solid mode it appends exactly one triangle-list
draw of the whole index buffer at offset 0. -/
theorem drawModel_wireframe_and_solid :
    (∀ (model : ModelGL) (gs : GLState),
        (drawModel false model gs).calls =
          gs.calls ++ (List.range model.numTriangles).map
            (fun i => GLCall.drawElementsCall "LINE_LOOP" 3 (i * 3 * 2)) ∧
        (drawModel false model gs).calls.length =
          gs.calls.length + model.numTriangles) ∧
    (∀ (model : ModelGL) (gs : GLState),
        drawModel true model gs =
          gs.emit (.drawElementsCall "TRIANGLES" model.vertexIndicesLength 0)) := by
  constructor
  · intro model gs
    have h := foldl_emit_calls
      (fun i => GLCall.drawElementsCall "LINE_LOOP" 3 (i * 3 * 2))
      (List.range model.numTriangles) gs
    constructor
    · simpa [drawModel] using h
    · simp [drawModel, h]
  · intro model gs
    simp [drawModel]

/-- C6: with perspective off the viewport is the largest centered square,
square side min of width and height and offsets half the leftover on each
axis; with perspective on it is the full canvas; including the two concrete
letterboxing examples. -/
theorem computeViewport_letterbox :
    (∀ w h : Rat, computeViewport false w h =
        ((w - min w h) / 2, (h - min w h) / 2, min w h, min w h)) ∧
    (∀ w h : Rat, computeViewport true w h = (0, 0, w, h)) ∧
    computeViewport false 800 600 = (100, 0, 600, 600) ∧
    computeViewport false 600 800 = (0, 100, 600, 600) := by
  refine ⟨?_, ?_, by norm_num [computeViewport], by norm_num [computeViewport]⟩
  · intro w h
    rcases lt_or_le h w with hlt | hle
    · have hgt : w > h := hlt
      simp [computeViewport, hgt, min_eq_right (le_of_lt hlt)]
    · have hngt : ¬(w > h) := not_lt.mpr hle
      simp [computeViewport, hngt, min_eq_left hle]
  · intro w h
    simp [computeViewport]

/-- Counterexample for C7: after exactly 1000 time-units with 60 frames
counted (59 before this frame), the strict comparison keeps fps at 0 and the
counter at 60 instead of reporting 60 and resetting. -/
theorem updateFPS_exact_window_cex :
    updateFPS 1000 ⟨0, 0, 59⟩ = ⟨0, 0, 60⟩ ∧
    updateFPS 1000 ⟨0, 0, 59⟩ ≠ ⟨60, 1000, 0⟩ := by
  constructor
  · rfl
  · simp [updateFPS]

/-- C7 as amended: every frame advances the counter by one, and the window
closes only when strictly more than 1000 time-units have elapsed, in which
case fps becomes the counter accumulated in the window (this frame included)
and the counter and window start reset; after 1001 units with 60 frames the
reported fps is 60 and the counter is 0. -/
theorem updateFPS_strict_window :
    (∀ (now : Int) (s : FPSState), now - s.lastTime ≤ 1000 →
        updateFPS now s = { s with frameNumber := s.frameNumber + 1 }) ∧
    (∀ (now : Int) (s : FPSState), now - s.lastTime > 1000 →
        updateFPS now s = ⟨s.frameNumber + 1, now, 0⟩) ∧
    updateFPS 1001 ⟨0, 0, 59⟩ = ⟨60, 1001, 0⟩ := by
  refine ⟨?_, ?_, rfl⟩
  · intro now s h
    simp [updateFPS, not_lt.mpr h]
  · intro now s h
    simp [updateFPS, h]

/-- Witness for C7 as amended: inside the window the counter only
advances. -/
theorem updateFPS_strict_window_witness :
    updateFPS 500 ⟨0, 0, 10⟩ = { (⟨0, 0, 10⟩ : FPSState) with frameNumber := 10 + 1 } :=
  updateFPS_strict_window.1 500 ⟨0, 0, 10⟩ (by decide)

/-- Counterexample for C2: with the diffuse texture data not yet cached, the
frame raises an uncaught exception out of renderLoop and the loop is not
rescheduled, so it does not retry on a next scheduled frame. -/
theorem renderLoop_failure_cex :
    (renderLoop envAllOk [] 0 sceneTexMiss fps0 gs0).err =
      some "Failed to set up diffuse texture, it was expected to be there but it was not" ∧
    (renderLoop envAllOk [] 0 sceneTexMiss fps0 gs0).rescheduled = false := by
  exact ⟨rfl, rfl⟩

/-- C2 as amended: a compile or link failure makes renderLoop return early
without rescheduling, and a texture-setup failure raises an exception that
propagates out of renderLoop, also without rescheduling; in neither case is
a retry scheduled by the loop itself. -/
theorem renderLoop_failure_aborts_without_reschedule :
    (∀ (env : GLEnv) (loader : List (String × PPM)) (now : Int)
       (scene : SceneData) (fpsS : FPSState) (gs : GLState) (m : ModelGL)
       (c : Camera),
        scene.glContext = true → scene.model = some m → scene.camera = some c →
        (compileProgram env true scene gs).1 = .ok none →
        renderLoop env loader now scene fpsS gs =
          ⟨none, false, (compileProgram env true scene gs).2.1, fpsS,
           (compileProgram env true scene gs).2.2⟩) ∧
    (∀ (env : GLEnv) (loader : List (String × PPM)) (now : Int)
       (scene : SceneData) (fpsS : FPSState) (gs : GLState) (m : ModelGL)
       (c : Camera) (p : Nat) (scene1 : SceneData) (gs1 : GLState)
       (m1 : ModelGL) (gs2 : GLState) (e : String) (m2 : ModelGL)
       (gs3 : GLState),
        scene.glContext = true → scene.model = some m → scene.camera = some c →
        compileProgram env true scene gs = (.ok (some p), scene1, gs1) →
        scene1.model = some m1 →
        setUpLights env true scene1
            (setUpVertexBuffer env m1 (gs1.emit (.useProgramCall p))) =
          (.ok (), gs2) →
        setUpTextures env true loader m1 gs2 = (.error e, m2, gs3) →
        (renderLoop env loader now scene fpsS gs).err = some e ∧
        (renderLoop env loader now scene fpsS gs).rescheduled = false) := by
  constructor
  · intro env loader now scene fpsS gs m c hgl hm hc hcp
    rcases hrun : compileProgram env true scene gs with ⟨r, s1, g1⟩
    rw [hrun] at hcp
    simp only at hcp
    subst hcp
    simp [renderLoop, hgl, hm, hc, hrun]
  · intro env loader now scene fpsS gs m c p scene1 gs1 m1 gs2 e m2 gs3
      hgl hm hc hcp hm1 hsl hst
    simp [renderLoop, hgl, hm, hc, hcp, hm1, hsl, hst]

/-- Witness for C2 as amended: the concrete texture-miss scene errs and is
not rescheduled. -/
theorem renderLoop_failure_aborts_without_reschedule_witness :
    (renderLoop envAllOk [] 5 sceneTexMiss fps0 gs0).rescheduled = false := by
  have h := renderLoop_failure_aborts_without_reschedule.2 envAllOk [] 5
    sceneTexMiss fps0 gs0 mTex cam0 7 sceneTexMiss gs0 mTex
    (setUpVertexBuffer envAllOk mTex (gs0.emit (.useProgramCall 7)))
    "Failed to set up diffuse texture, it was expected to be there but it was not"
    mTex
    ((setUpTextures envAllOk true [] mTex
        (setUpVertexBuffer envAllOk mTex (gs0.emit (.useProgramCall 7)))).2.2)
    rfl rfl rfl rfl rfl rfl rfl
  exact h.2

/-- C10: loadFile is a pure synchronous cache lookup: its result is exactly
the cache entry for the path (undefined when absent), the cache is returned
unchanged, and no fetch effect is emitted. -/
theorem loadFile_pure_lookup :
    ∀ (cache : List (String × PPM)) (path : String),
      (loadFile cache path).1 = cache.lookup path ∧
      (loadFile cache path).2.1 = cache ∧
      (loadFile cache path).2.2.countP (fun e => isFetch e) = 0 := by
  intro cache path
  rcases h : cache.lookup path with _ | img <;> simp [loadFile, h, isFetch]

end NormalMapRenderer
